import Mathlib

/-!
Shallow embedding of the deliberation-orchestration client of the aicxo
repository (frontend `MeetingDetail.tsx`, `AdminSettings.tsx`, and the
shared `types` module), together with a spec-modelled Version Manager for
the parts of the backend that are not present under `src/`.

TypeScript `number` is modelled as `Int` where the code treats the value
as an integer (versions, token ceilings, polling intervals, user ids) and
as `Rat` for confidence / expertise weights.  Optional TypeScript fields
(`field?:`) become `Option`.  JavaScript truthiness of the `||` operator
is modelled per type: `""` and `undefined` are falsy for strings, `0` and
`undefined` for numbers, and only `undefined` for arrays (an empty array
is truthy in JavaScript).
-/

namespace Aicxo

/-- `x || d` for JavaScript string-or-undefined values: `undefined` and the
empty string are falsy. -/
def jsOrStr (x : Option String) (d : String) : String :=
  match x with
  | none => d
  | some s => if s = "" then d else s

/-- `x || d` for JavaScript number-or-undefined values: `undefined` and `0`
are falsy. -/
def jsOrNum (x : Option Int) (d : Int) : Int :=
  match x with
  | none => d
  | some n => if n = 0 then d else n

/-- `x || d` for JavaScript array-or-undefined values: an array is always
truthy (even when empty), only `undefined` falls through. -/
def jsOrList {α : Type} (x : Option (List α)) (d : List α) : List α :=
  x.getD d

/-- JavaScript `s.trim()`: strip whitespace from both ends. -/
def jsTrim (s : String) : String :=
  String.mk
    (((s.toList.dropWhile Char.isWhitespace).reverse.dropWhile
      Char.isWhitespace).reverse)

/-- Expertise-weight vector (`AgentWeights` in `types`). -/
structure AgentWeights where
  finance : Rat
  technology : Rat
  operations : Rat
  people_hr : Rat
  logistics : Rat
  deriving Repr, DecidableEq

/-- One agent's opinion snapshot (`AgentOpinion` in `types`). -/
structure AgentOpinion where
  agent_id : String
  agent_name : String
  agent_role : String
  opinion : String
  reasoning : String
  confidence : Rat
  weights_applied : AgentWeights
  timestamp : String
  deriving Repr, DecidableEq

/-- `FollowUpQuestion` in `types`: `chair_response` and `version` are
optional fields. -/
structure FollowUpQuestion where
  id : String
  question : String
  chair_response : Option String
  created_at : String
  version : Option Int
  deriving Repr, DecidableEq

/-- `OpinionVersion` in `types`: an archived snapshot.  `follow_ups` and
`generated_by` are optional fields. -/
structure OpinionVersion where
  version : Int
  opinions : List AgentOpinion
  chair_summary : String
  chair_recommendation : String
  follow_ups : Option (List FollowUpQuestion)
  generated_at : String
  generated_by : Option Int
  deriving Repr, DecidableEq

/-- Meeting status: the string union `'in_progress' | 'completed'`. -/
inductive MeetingStatus where
  | in_progress
  | completed
  deriving Repr, DecidableEq

/-- Severity of a diagnostic entry: `'info' | 'warning' | 'error'`. -/
inductive LogLevel where
  | info
  | warning
  | error
  deriving Repr, DecidableEq

/-- A diagnostic log entry as consumed by `MeetingDetail.tsx`
(`log.level`, `log.agent_name`, `log.message`, `log.details`,
`log.timestamp`); the optional structured `details` payload is kept as an
opaque string. -/
structure DiagnosticLogEntry where
  level : LogLevel
  agent_name : String
  message : String
  details : Option String
  timestamp : String
  deriving Repr, DecidableEq

/-- `MeetingFile` in `types`. -/
structure MeetingFile where
  id : String
  filename : String
  file_type : String
  uploaded_at : String
  deriving Repr, DecidableEq

/-- `Meeting` in `types`, plus the `debug_logs` field read by
`MeetingDetail.tsx` (`meeting?.debug_logs || []`). -/
structure Meeting where
  id : String
  user_id : Int
  question : String
  context : Option String
  opinions : List AgentOpinion
  chair_summary : String
  chair_recommendation : String
  status : MeetingStatus
  created_at : String
  completed_at : Option String
  follow_ups : Option (List FollowUpQuestion)
  attached_files : Option (List MeetingFile)
  current_version : Option Int
  opinion_history : Option (List OpinionVersion)
  debug_logs : Option (List DiagnosticLogEntry)
  deriving Repr, DecidableEq

/-- `User` in `types` (only the fields the claims touch matter). -/
structure User where
  id : Int
  email : String
  username : String
  is_admin : Bool
  is_active : Bool
  hired_agents : List String
  deriving Repr, DecidableEq

/-! ## Display selectors of `MeetingDetail.tsx` (lines 255–262)

`const displayOpinions = selectedVersion?.opinions || meeting?.opinions || [];`
`const displayChairSummary = selectedVersion?.chair_summary || meeting?.chair_summary || '';`
`const displayChairRecommendation = selectedVersion?.chair_recommendation || meeting?.chair_recommendation || '';`
`const displayFollowUps = selectedVersion?.follow_ups || followUps;`
`const debugLogs = meeting?.debug_logs || [];`
-/

def displayOpinions (selectedVersion : Option OpinionVersion)
    (meeting : Option Meeting) : List AgentOpinion :=
  jsOrList (selectedVersion.map (fun v => v.opinions))
    (jsOrList (meeting.map (fun m => m.opinions)) [])

def displayChairSummary (selectedVersion : Option OpinionVersion)
    (meeting : Option Meeting) : String :=
  jsOrStr (selectedVersion.map (fun v => v.chair_summary))
    (jsOrStr (meeting.map (fun m => m.chair_summary)) "")

def displayChairRecommendation (selectedVersion : Option OpinionVersion)
    (meeting : Option Meeting) : String :=
  jsOrStr (selectedVersion.map (fun v => v.chair_recommendation))
    (jsOrStr (meeting.map (fun m => m.chair_recommendation)) "")

/-- `selectedVersion?.follow_ups || followUps`: note `follow_ups` is an
optional field of the snapshot, so a snapshot without a stored follow-up
list falls back to the *current* follow-up list. -/
def displayFollowUps (selectedVersion : Option OpinionVersion)
    (followUps : List FollowUpQuestion) : List FollowUpQuestion :=
  match selectedVersion with
  | none => followUps
  | some v => jsOrList v.follow_ups followUps

def debugLogsOf (meeting : Option Meeting) : List DiagnosticLogEntry :=
  jsOrList (meeting.bind (fun m => m.debug_logs)) []

/-- The opinion list as rendered (lines 760–764): `displayOpinions.map`
with the running index, so card `i` is built from element `i`. -/
def renderedOpinionCards (selectedVersion : Option OpinionVersion)
    (meeting : Option Meeting) : List (Nat × AgentOpinion) :=
  (displayOpinions selectedVersion meeting).enum

/-- The debug-log list as rendered (line 819):
`[...debugLogs].reverse().map(...)` — the spread copies the stored array
and `reverse` runs on the copy. -/
def renderedDebugLogs (meeting : Option Meeting) : List DiagnosticLogEntry :=
  (debugLogsOf meeting).reverse

/-! ## JavaScript `parseInt` (no radix argument) -/

/-- Decimal digit value. -/
def decDigitVal (c : Char) : Option Nat :=
  if c.isDigit then some (c.toNat - 48) else none

/-- Hexadecimal digit value. -/
def hexDigitVal (c : Char) : Option Nat :=
  if c.isDigit then some (c.toNat - 48)
  else if 97 ≤ c.toNat ∧ c.toNat ≤ 102 then some (c.toNat - 97 + 10)
  else if 65 ≤ c.toNat ∧ c.toNat ≤ 70 then some (c.toNat - 65 + 10)
  else none

/-- Longest prefix of digit values recognised by `dv`. -/
def takeDigits (dv : Char → Option Nat) : List Char → List Nat
  | [] => []
  | c :: rest =>
    match dv c with
    | some v => v :: takeDigits dv rest
    | none => []

/-- JavaScript `parseInt(s)` with no radix: skip leading whitespace, read an
optional sign, auto-detect a `0x`/`0X` prefix (hexadecimal) otherwise parse
decimal, take the longest digit prefix, and return NaN (`none`) when no
digit was consumed. -/
def parseIntJS (s : String) : Option Int :=
  let cs := s.toList.dropWhile (fun c => c = ' ' ∨ c = '\t' ∨ c = '\n' ∨ c = '\r')
  let signed : Int × List Char :=
    match cs with
    | '-' :: rest => (-1, rest)
    | '+' :: rest => (1, rest)
    | _ => (1, cs)
  let based : Nat × List Char :=
    match signed.2 with
    | '0' :: 'x' :: rest => (16, rest)
    | '0' :: 'X' :: rest => (16, rest)
    | _ => (10, signed.2)
  let dv := if based.1 = 16 then hexDigitVal else decDigitVal
  match takeDigits dv based.2 with
  | [] => none
  | ds => some (signed.1 * ((ds.foldl (fun acc d => acc * based.1 + d) 0 : Nat) : Int))

/-! ## `AdminSettings.tsx`: `handleSaveTokenLimits` (lines 63–89) -/

/-- Observable outcome of `handleSaveTokenLimits`: either a `PUT
/api/admin/settings` request carrying the stringified limits, or an early
return with a toast error and no request. -/
inductive TokenLimitsOutcome where
  | saveRequest (agent_max_tokens chair_max_tokens : String)
  | rejected (message : String)
  deriving Repr, DecidableEq

/-- The guard `isNaN(x) || x < 500 || x > 16000` applied to a parse
result. -/
def outOfTokenRange (t : Option Int) : Bool :=
  match t with
  | none => true
  | some v => v < 500 ∨ v > 16000

def handleSaveTokenLimits (agentMaxTokens chairMaxTokens : String) :
    TokenLimitsOutcome :=
  let agentTokens := parseIntJS agentMaxTokens
  let chairTokens := parseIntJS chairMaxTokens
  if outOfTokenRange agentTokens then
    .rejected "Agent max tokens must be between 500 and 16000"
  else if outOfTokenRange chairTokens then
    .rejected "Chair max tokens must be between 500 and 16000"
  else
    .saveRequest (toString (agentTokens.getD 0)) (toString (chairTokens.getD 0))

/-! ## `MeetingDetail.tsx`: settings polling (lines 69, 117–132) -/

/-- Result of an API call as observed by a handler: the payload on success,
the optional `error.response.data.detail` string on failure. -/
inductive ApiResult (α : Type) where
  | success (data : α)
  | failure (detail : Option String)
  deriving Repr, DecidableEq

/-- `useState(2000)` initial value of `pollingIntervalMs`. -/
def pollingIntervalMsInit : Int := 2000

/-- JavaScript truthiness of `user?.is_admin` for an optional user. -/
def jsIsAdmin (user : Option User) : Bool :=
  match user with
  | some u => u.is_admin
  | none => false

/-- One run of `fetchSettings`: a non-admin user returns immediately, a
failed request is swallowed, and `pollingIntervalMs` is overwritten only
when `response.data.polling_interval` is truthy and parses to an integer
`>= 500`. -/
def fetchSettingsStep (user : Option User)
    (resp : ApiResult (Option String)) (pollingIntervalMs : Int) : Int :=
  if jsIsAdmin user = false then
    pollingIntervalMs
  else
    match resp with
    | .failure _ => pollingIntervalMs
    | .success p =>
      match p with
      | none => pollingIntervalMs
      | some s =>
        if s = "" then pollingIntervalMs
        else
          match parseIntJS s with
          | none => pollingIntervalMs
          | some interval =>
            if interval ≥ 500 then interval else pollingIntervalMs

/-! ## `MeetingDetail.tsx`: expanded-log toggle (lines 266–276) -/

/-- `toggleLogExpanded`: copy the previous set, then delete the index if
present, insert it otherwise. -/
def toggleLogExpanded (prev : Finset Nat) (index : Nat) : Finset Nat :=
  if index ∈ prev then prev.erase index else insert index prev

/-! ## `MeetingDetail.tsx`: action availability (lines 461, 658) -/

/-- `user?.is_admin && meeting.status === 'completed'` guarding the
Regenerate button (line 461). -/
def regenerateOffered (user : Option User) (m : Meeting) : Bool :=
  jsIsAdmin user && decide (m.status = .completed)

/-- `meeting.status === 'completed' && !selectedVersion` guarding the Ask
Follow-up button (line 658). -/
def askFollowUpOffered (m : Meeting)
    (selectedVersion : Option OpinionVersion) : Bool :=
  decide (m.status = .completed) && selectedVersion.isNone

/-! ## `MeetingDetail.tsx`: client state transitions (lines 156–219) -/

/-- The component state touched by the regenerate/restore/follow-up
handlers. -/
structure ClientState where
  meeting : Option Meeting
  followUps : List FollowUpQuestion
  selectedVersion : Option OpinionVersion
  showVersionHistory : Bool
  restoringVersion : Bool
  submittingFollowUp : Bool
  followUpQuestion : String
  showFollowUp : Bool
  deriving Repr, DecidableEq

/-- `handleRestoreVersion` (lines 183–199): on success the meeting, its
follow-ups, the preview selection and the history dropdown are updated; on
failure only a toast is shown; `finally` clears the loading flag. -/
def handleRestoreVersion (st : ClientState) (confirmed : Bool)
    (result : ApiResult Meeting) : ClientState :=
  if ¬ confirmed then st
  else
    let st1 := { st with restoringVersion := true }
    match result with
    | .success data =>
      { st1 with
        meeting := some data
        followUps := data.follow_ups.getD []
        selectedVersion := none
        showVersionHistory := false
        restoringVersion := false }
    | .failure _ => { st1 with restoringVersion := false }

/-- `handleFollowUpSubmit` (lines 201–219): early return on a blank
question; on success the response is appended to `followUps` and the form
is reset; on failure only a toast is shown; `finally` clears the loading
flag. -/
def handleFollowUpSubmit (st : ClientState)
    (result : ApiResult FollowUpQuestion) : ClientState :=
  if jsTrim st.followUpQuestion = "" then st
  else
    let st1 := { st with submittingFollowUp := true }
    match result with
    | .success data =>
      { st1 with
        followUps := st1.followUps ++ [data]
        followUpQuestion := ""
        showFollowUp := false
        submittingFollowUp := false }
    | .failure _ => { st1 with submittingFollowUp := false }

/-- `handleRegenerate` confirmation prompt (lines 156–158):
`(meeting?.opinion_history?.length || 0) + 1` versions offered. -/
def regenerateHistoryCount (meeting : Option Meeting) : Int :=
  jsOrNum ((meeting.bind (fun m => m.opinion_history)).map
    (fun l => (l.length : Int))) 0 + 1

/-- History control label (line 388):
`(meeting.opinion_history?.length || 0) + 1`. -/
def historyLabelCount (m : Meeting) : Int :=
  jsOrNum (m.opinion_history.map (fun l => (l.length : Int))) 0 + 1

/-! ## Spec-modelled Version Manager (backend, not under `src/`) -/

/-- Modelled from the spec: the snapshot the Version Manager archives on
regenerate/restore (§3 `OpinionVersion`, §4.4) — the current opinions,
chair summary/recommendation and the follow-up list as it stood, stamped
with the outgoing version number. -/
def archiveCurrent (m : Meeting) (t : String) (triggeredBy : Option Int) :
    OpinionVersion :=
  { version := m.current_version.getD 1
    opinions := m.opinions
    chair_summary := m.chair_summary
    chair_recommendation := m.chair_recommendation
    follow_ups := some (m.follow_ups.getD [])
    generated_at := t
    generated_by := triggeredBy }

/-- Modelled from the spec: the Version Manager `create` transition (§4.4):
on success the meeting is `completed` with version 1, empty history, at
least one opinion and non-empty chair fields; a failed generation leaves no
completed meeting (`none`). -/
def createMeeting (mid : String) (uid : Int) (question : String)
    (ctx : Option String) (ops : List AgentOpinion)
    (summary recommendation : String) (t tdone : String) : Option Meeting :=
  if ops ≠ [] ∧ summary ≠ "" ∧ recommendation ≠ "" then
    some
      { id := mid
        user_id := uid
        question := question
        context := ctx
        opinions := ops
        chair_summary := summary
        chair_recommendation := recommendation
        status := .completed
        created_at := t
        completed_at := some tdone
        follow_ups := some []
        attached_files := some []
        current_version := some 1
        opinion_history := some []
        debug_logs := some [] }
  else none

/-- Modelled from the spec: the Version Manager `regenerate` transition
(§4.4): only from `completed`; archives the current state as a new history
entry, replaces opinions/summary/recommendation, and increments
`current_version`; any failure leaves the stored meeting untouched
(`none`). -/
def regenerateMeeting (m : Meeting) (newOps : List AgentOpinion)
    (newSummary newRecommendation : String) (t : String)
    (triggeredBy : Option Int) : Option Meeting :=
  if m.status = .completed ∧ newOps ≠ [] ∧ newSummary ≠ "" ∧
      newRecommendation ≠ "" then
    some
      { m with
        opinions := newOps
        chair_summary := newSummary
        chair_recommendation := newRecommendation
        status := .completed
        current_version := some (m.current_version.getD 1 + 1)
        opinion_history :=
          some (m.opinion_history.getD [] ++ [archiveCurrent m t triggeredBy]) }
  else none

/-- Modelled from the spec: the Version Manager `restore(v)` transition
(§4.4): only from `completed` and only for an existing history entry;
archives the current state, copies version `v`'s content into the current
state, and increments `current_version`; otherwise the stored meeting is
untouched (`none`). -/
def restoreMeeting (m : Meeting) (v : Int) (t : String)
    (triggeredBy : Option Int) : Option Meeting :=
  if m.status = .completed then
    match (m.opinion_history.getD []).find? (fun snap => snap.version == v) with
    | some snap =>
      some
        { m with
          opinions := snap.opinions
          chair_summary := snap.chair_summary
          chair_recommendation := snap.chair_recommendation
          follow_ups := some (snap.follow_ups.getD [])
          current_version := some (m.current_version.getD 1 + 1)
          opinion_history :=
            some (m.opinion_history.getD [] ++ [archiveCurrent m t triggeredBy]) }
    | none => none
  else none

/-- The spec's §3 invariant: `current_version` equals the history length
plus one. -/
def versionInvariant (m : Meeting) : Prop :=
  m.current_version = some (((m.opinion_history.getD []).length : Int) + 1)

/-- The spec's wording for a valid token ceiling: the input parses to a
number in the range [500, 16000]. -/
def tokenInRangeSpec (x : Option Int) : Prop :=
  ∃ v, x = some v ∧ 500 ≤ v ∧ v ≤ 16000

/-! ## Concrete example values (used by witnesses and counterexamples) -/

def exWeights : AgentWeights :=
  { finance := 1, technology := 0, operations := 0, people_hr := 0,
    logistics := 0 }

def exOpinion : AgentOpinion :=
  { agent_id := "a1", agent_name := "CFO", agent_role := "Finance",
    opinion := "proceed", reasoning := "cash flow is healthy",
    confidence := 1, weights_applied := exWeights,
    timestamp := "2024-01-01T00:00:00Z" }

/-- A follow-up stamped at version 2 (asked after version 1 existed). -/
def exFollowUpV2 : FollowUpQuestion :=
  { id := "f2", question := "what about hiring?", chair_response := none,
    created_at := "2024-01-02T00:00:00Z", version := some 2 }

/-- A historical snapshot of version 1 whose optional `follow_ups` field is
absent. -/
def exSnapshotV1 : OpinionVersion :=
  { version := 1, opinions := [exOpinion], chair_summary := "sum1",
    chair_recommendation := "rec1", follow_ups := none,
    generated_at := "2024-01-01T00:00:00Z", generated_by := some 1 }

def exLogFirst : DiagnosticLogEntry :=
  { level := .info, agent_name := "system", message := "meeting started",
    details := none, timestamp := "2024-01-01T00:00:00.000Z" }

def exLogSecond : DiagnosticLogEntry :=
  { level := .error, agent_name := "CFO", message := "provider timeout",
    details := some "timeout", timestamp := "2024-01-01T00:00:01.000Z" }

def exUser : User :=
  { id := 1, email := "admin@example.com", username := "admin",
    is_admin := true, is_active := true, hired_agents := ["a1"] }

def exMeeting : Meeting :=
  { id := "m1", user_id := 1, question := "expand to Europe?",
    context := none, opinions := [exOpinion], chair_summary := "sum",
    chair_recommendation := "rec", status := .completed,
    created_at := "2024-01-01T00:00:00Z",
    completed_at := some "2024-01-01T00:01:00Z", follow_ups := some [],
    attached_files := some [], current_version := some 1,
    opinion_history := some [], debug_logs := some [exLogFirst, exLogSecond] }

def exMeetingInProgress : Meeting :=
  { exMeeting with status := .in_progress }

def exClientState : ClientState :=
  { meeting := some exMeeting, followUps := [], selectedVersion := none,
    showVersionHistory := false, restoringVersion := false,
    submittingFollowUp := false, followUpQuestion := "why now?",
    showFollowUp := true }

def exFollowUpAnswer : FollowUpQuestion :=
  { id := "f9", question := "why now?", chair_response := some "timing",
    created_at := "2024-01-03T00:00:00Z", version := some 1 }

/-! ## Claims -/

/-- C3: opinions are presented in exactly the order of the stored opinions
array: when a historical version is selected the displayed list is that
snapshot's `opinions`, otherwise the meeting's `opinions`, and the `i`-th
rendered opinion card is built from index `i` and the `i`-th element — the
client never reorders or filters by completion time or confidence. -/
theorem C3_opinions_hired_order (sv : Option OpinionVersion)
    (meeting : Option Meeting) (v : OpinionVersion) (m : Meeting) (i : Nat) :
    displayOpinions (some v) meeting = v.opinions
    ∧ displayOpinions none (some m) = m.opinions
    ∧ (renderedOpinionCards sv meeting).length =
        (displayOpinions sv meeting).length
    ∧ (renderedOpinionCards sv meeting)[i]? =
        ((displayOpinions sv meeting)[i]?).map (fun o => (i, o)) := by
  refine ⟨rfl, rfl, ?_, ?_⟩
  · simp [renderedOpinionCards]
  · simp [renderedOpinionCards]

/-- C6: the rendered debug-log list is exactly the reverse of
`meeting.debug_logs` (reversing it again recovers the stored list
unchanged), so logs kept in chronological order are displayed
newest-first. -/
theorem C6_debug_logs_newest_first (meeting : Option Meeting)
    (h : (debugLogsOf meeting).Pairwise (fun a b => a.timestamp ≤ b.timestamp)) :
    renderedDebugLogs meeting = (debugLogsOf meeting).reverse
    ∧ (renderedDebugLogs meeting).reverse = debugLogsOf meeting
    ∧ (renderedDebugLogs meeting).Pairwise
        (fun a b => b.timestamp ≤ a.timestamp) := by
  refine ⟨rfl, List.reverse_reverse _, ?_⟩
  exact List.pairwise_reverse.2 h

/-- C6 witness: on a concrete meeting with two chronologically ordered log
entries the rendered list is the reverse and is newest-first. -/
theorem C6_debug_logs_newest_first_witness :
    renderedDebugLogs (some exMeeting) = (debugLogsOf (some exMeeting)).reverse
    ∧ (renderedDebugLogs (some exMeeting)).reverse = debugLogsOf (some exMeeting)
    ∧ (renderedDebugLogs (some exMeeting)).Pairwise
        (fun a b => b.timestamp ≤ a.timestamp) :=
  C6_debug_logs_newest_first (some exMeeting) (by
    have h : debugLogsOf (some exMeeting) = [exLogFirst, exLogSecond] := rfl
    rw [h]
    refine List.Pairwise.cons ?_ (List.pairwise_singleton _ _)
    intro b hb
    simp only [List.mem_singleton] at hb
    subst hb
    show ("2024-01-01T00:00:00.000Z" : String) ≤ "2024-01-01T00:00:01.000Z"
    rw [String.le_iff_toList_le]
    decide)

/-- C7: the Regenerate button is rendered only when the user is an admin
and the meeting's status is `completed`; the Ask Follow-up button only when
the status is `completed` and no historical version is being previewed;
neither is available on an `in_progress` meeting. -/
theorem C7_actions_gated_on_completed (user : Option User) (m : Meeting)
    (sv : Option OpinionVersion) :
    (regenerateOffered user m = true →
      m.status = .completed ∧ jsIsAdmin user = true)
    ∧ (askFollowUpOffered m sv = true → m.status = .completed ∧ sv = none)
    ∧ (m.status = .in_progress →
        regenerateOffered user m = false ∧ askFollowUpOffered m sv = false) := by
  refine ⟨?_, ?_, ?_⟩
  · intro h
    simp only [regenerateOffered, Bool.and_eq_true, decide_eq_true_eq] at h
    exact ⟨h.2, h.1⟩
  · intro h
    simp only [askFollowUpOffered, Bool.and_eq_true, decide_eq_true_eq,
      Option.isNone_iff_eq_none] at h
    exact h
  · intro h
    simp [regenerateOffered, askFollowUpOffered, h]

/-- C7 witness: on a concrete admin user and completed meeting both guards
hold, and on the same meeting marked `in_progress` both buttons are
absent. -/
theorem C7_actions_gated_on_completed_witness :
    (exMeeting.status = .completed ∧ jsIsAdmin (some exUser) = true)
    ∧ (exMeeting.status = .completed ∧ (none : Option OpinionVersion) = none)
    ∧ (regenerateOffered (some exUser) exMeetingInProgress = false
        ∧ askFollowUpOffered exMeetingInProgress none = false) :=
  ⟨(C7_actions_gated_on_completed (some exUser) exMeeting none).1 (by decide),
   (C7_actions_gated_on_completed (some exUser) exMeeting none).2.1 (by decide),
   (C7_actions_gated_on_completed (some exUser) exMeetingInProgress none).2.2
     (by decide)⟩

/-- C8: when a historical version is previewed and its snapshot summary and
recommendation are non-empty strings, the displayed chair summary and
recommendation are exactly the snapshot's fields. -/
theorem C8_historical_chair_fields (v : OpinionVersion)
    (meeting : Option Meeting) (hs : v.chair_summary ≠ "")
    (hr : v.chair_recommendation ≠ "") :
    displayChairSummary (some v) meeting = v.chair_summary
    ∧ displayChairRecommendation (some v) meeting = v.chair_recommendation := by
  constructor
  · simp [displayChairSummary, jsOrStr, hs]
  · simp [displayChairRecommendation, jsOrStr, hr]

/-- C8 witness: previewing the concrete version-1 snapshot displays its own
chair fields. -/
theorem C8_historical_chair_fields_witness :
    displayChairSummary (some exSnapshotV1) none = exSnapshotV1.chair_summary
    ∧ displayChairRecommendation (some exSnapshotV1) none =
        exSnapshotV1.chair_recommendation :=
  C8_historical_chair_fields exSnapshotV1 none (by decide) (by decide)

/-- C10: `toggleLogExpanded` is an involution local to its argument:
toggling an index twice restores the original set, one application flips
membership of that index, and membership of every other index is
unchanged. -/
theorem C10_toggle_involution (s : Finset Nat) (i : Nat) :
    toggleLogExpanded (toggleLogExpanded s i) i = s
    ∧ (i ∈ toggleLogExpanded s i ↔ i ∉ s)
    ∧ ∀ j, j ≠ i → (j ∈ toggleLogExpanded s i ↔ j ∈ s) := by
  by_cases h : i ∈ s
  · have t1 : toggleLogExpanded s i = s.erase i := by
      simp [toggleLogExpanded, h]
    refine ⟨?_, ?_, ?_⟩
    · rw [t1]
      simp [toggleLogExpanded, Finset.not_mem_erase, Finset.insert_erase h]
    · rw [t1]
      simp [Finset.not_mem_erase, h]
    · intro j hj
      rw [t1]
      simp [Finset.mem_erase, hj]
  · have t1 : toggleLogExpanded s i = insert i s := by
      simp [toggleLogExpanded, h]
    refine ⟨?_, ?_, ?_⟩
    · rw [t1]
      simp [toggleLogExpanded, Finset.erase_insert h]
    · rw [t1]
      simp [h]
    · intro j hj
      rw [t1]
      simp [Finset.mem_insert, hj]

/-- C10 witness: toggling index 1 on the concrete set `{1, 2}` leaves
membership of index 2 unchanged. -/
theorem C10_toggle_involution_witness :
    2 ∈ toggleLogExpanded {1, 2} 1 ↔ 2 ∈ ({1, 2} : Finset Nat) :=
  (C10_toggle_involution {1, 2} 1).2.2 2 (by decide)

/-- The early-return guard of `handleSaveTokenLimits` is false exactly when
the input parses to a number in [500, 16000]. -/
theorem outOfTokenRange_eq_false_iff (x : Option Int) :
    outOfTokenRange x = false ↔ tokenInRangeSpec x := by
  cases x with
  | none => simp [outOfTokenRange, tokenInRangeSpec]
  | some v =>
    simp only [outOfTokenRange, tokenInRangeSpec, decide_eq_false_iff_not,
      not_or, not_lt, Option.some.injEq]
    constructor
    · intro h
      exact ⟨v, rfl, h.1, h.2⟩
    · rintro ⟨w, rfl, h1, h2⟩
      exact ⟨h1, h2⟩

/-- C4: `handleSaveTokenLimits` issues the settings-update request if and
only if both the agent and chair max-token inputs parse to numbers in
[500, 16000]; otherwise it rejects at configuration time with an error
message and makes no request. -/
theorem C4_token_limits_iff (a c : String) :
    ((∃ pa pc, handleSaveTokenLimits a c = .saveRequest pa pc) ↔
      tokenInRangeSpec (parseIntJS a) ∧ tokenInRangeSpec (parseIntJS c))
    ∧ (¬ (tokenInRangeSpec (parseIntJS a) ∧ tokenInRangeSpec (parseIntJS c)) →
        ∃ msg, handleSaveTokenLimits a c = .rejected msg) := by
  cases ha : outOfTokenRange (parseIntJS a) with
  | true =>
    have hna : ¬ tokenInRangeSpec (parseIntJS a) := by
      rw [← outOfTokenRange_eq_false_iff, ha]
      simp
    constructor
    · constructor
      · rintro ⟨pa, pc, h⟩
        simp [handleSaveTokenLimits, ha] at h
      · rintro ⟨h1, _⟩
        exact absurd h1 hna
    · intro _
      exact ⟨"Agent max tokens must be between 500 and 16000",
        by simp [handleSaveTokenLimits, ha]⟩
  | false =>
    cases hc : outOfTokenRange (parseIntJS c) with
    | true =>
      have hnc : ¬ tokenInRangeSpec (parseIntJS c) := by
        rw [← outOfTokenRange_eq_false_iff, hc]
        simp
      constructor
      · constructor
        · rintro ⟨pa, pc, h⟩
          simp [handleSaveTokenLimits, ha, hc] at h
        · rintro ⟨_, h2⟩
          exact absurd h2 hnc
      · intro _
        exact ⟨"Chair max tokens must be between 500 and 16000",
          by simp [handleSaveTokenLimits, ha, hc]⟩
    | false =>
      have hva := (outOfTokenRange_eq_false_iff (parseIntJS a)).1 ha
      have hvc := (outOfTokenRange_eq_false_iff (parseIntJS c)).1 hc
      constructor
      · constructor
        · intro _
          exact ⟨hva, hvc⟩
        · intro _
          exact ⟨toString ((parseIntJS a).getD 0), toString ((parseIntJS c).getD 0),
            by simp [handleSaveTokenLimits, ha, hc]⟩
      · intro h
        exact absurd ⟨hva, hvc⟩ h

/-- C4 witness: a concrete unparsable agent input is rejected with an
error message and no request is made. -/
theorem C4_token_limits_iff_witness :
    ∃ msg, handleSaveTokenLimits "abc" "3000" = .rejected msg :=
  (C4_token_limits_iff "abc" "3000").2 (by
    rintro ⟨⟨w, hw, -, -⟩, -⟩
    have hn : parseIntJS "abc" = none := rfl
    rw [hn] at hw
    cases hw)

/-- C9 helper: one `fetchSettings` run either leaves the polling interval
unchanged, or the user is an admin, the configured value is a truthy string
parsing to an integer `>= 500`, and the interval becomes that value. -/
theorem fetchSettingsStep_spec (user : Option User)
    (resp : ApiResult (Option String)) (cur : Int) :
    fetchSettingsStep user resp cur = cur
    ∨ (jsIsAdmin user = true ∧ ∃ s v, resp = .success (some s) ∧ ¬ s = ""
        ∧ parseIntJS s = some v ∧ 500 ≤ v
        ∧ fetchSettingsStep user resp cur = v) := by
  cases hadm : jsIsAdmin user with
  | false =>
    left
    simp [fetchSettingsStep, hadm]
  | true =>
    rcases resp with p | d
    · rcases p with _ | s
      · left
        simp [fetchSettingsStep, hadm]
      · by_cases hs : s = ""
        · left
          simp [fetchSettingsStep, hadm, hs]
        · cases hp : parseIntJS s with
          | none =>
            left
            simp [fetchSettingsStep, hadm, hs, hp]
          | some v =>
            by_cases hv : 500 ≤ v
            · right
              refine ⟨rfl, s, v, rfl, hs, hp, hv, ?_⟩
              simp [fetchSettingsStep, hadm, hs, hp, hv]
            · left
              simp [fetchSettingsStep, hadm, hs, hp, hv]
    · left
      simp [fetchSettingsStep, hadm]

/-- C9: the regeneration polling interval starts at 2000 ms and never drops
below 500 ms — `fetchSettings` overwrites it only when the configured
`polling_interval` is truthy and parses to an integer at least 500, for an
admin user. -/
theorem C9_polling_floor (user : Option User)
    (resp : ApiResult (Option String)) (cur : Int) :
    pollingIntervalMsInit = 2000
    ∧ (500 ≤ cur → 500 ≤ fetchSettingsStep user resp cur)
    ∧ (fetchSettingsStep user resp cur ≠ cur →
        jsIsAdmin user = true ∧ ∃ s v, resp = .success (some s) ∧ ¬ s = ""
          ∧ parseIntJS s = some v ∧ 500 ≤ v
          ∧ fetchSettingsStep user resp cur = v) := by
  refine ⟨rfl, ?_, ?_⟩
  · intro hcur
    rcases fetchSettingsStep_spec user resp cur with h | ⟨_, s, v, _, _, _, hv, hstep⟩
    · rw [h]
      exact hcur
    · rw [hstep]
      exact hv
  · intro hne
    rcases fetchSettingsStep_spec user resp cur with h | h
    · exact absurd h hne
    · exact h

/-- C9 witness: for a concrete admin user with a configured interval of
800 ms the polling interval stays at or above 500 and is overwritten to
800. -/
theorem C9_polling_floor_witness :
    500 ≤ fetchSettingsStep (some exUser) (.success (some "800")) 2000
    ∧ (jsIsAdmin (some exUser) = true ∧ ∃ s v,
        (ApiResult.success (some "800") : ApiResult (Option String)) =
          .success (some s) ∧ ¬ s = "" ∧ parseIntJS s = some v ∧ 500 ≤ v
        ∧ fetchSettingsStep (some exUser) (.success (some "800")) 2000 = v) :=
  ⟨(C9_polling_floor (some exUser) (.success (some "800")) 2000).2.1 (by decide),
   (C9_polling_floor (some exUser) (.success (some "800")) 2000).2.2 (by decide)⟩

/-- C5: a failed restore leaves the meeting, follow-ups, preview selection
and history dropdown exactly as they were; a failed follow-up submission
leaves the follow-up list unchanged; the follow-up list changes only on a
successful response, and then by appending that response. -/
theorem C5_failure_preserves_state (st : ClientState) (confirmed : Bool)
    (e e2 : Option String) (r : ApiResult FollowUpQuestion) :
    ((handleRestoreVersion st confirmed (.failure e)).meeting = st.meeting
      ∧ (handleRestoreVersion st confirmed (.failure e)).followUps = st.followUps
      ∧ (handleRestoreVersion st confirmed (.failure e)).selectedVersion =
          st.selectedVersion
      ∧ (handleRestoreVersion st confirmed (.failure e)).showVersionHistory =
          st.showVersionHistory)
    ∧ (handleFollowUpSubmit st (.failure e2)).followUps = st.followUps
    ∧ ((handleFollowUpSubmit st r).followUps ≠ st.followUps →
        ∃ d, r = .success d
          ∧ (handleFollowUpSubmit st r).followUps = st.followUps ++ [d]) := by
  refine ⟨?_, ?_, ?_⟩
  · unfold handleRestoreVersion
    split
    · exact ⟨rfl, rfl, rfl, rfl⟩
    · exact ⟨rfl, rfl, rfl, rfl⟩
  · unfold handleFollowUpSubmit
    split
    · rfl
    · rfl
  · intro hne
    rcases r with d | d
    · refine ⟨d, rfl, ?_⟩
      by_cases ht : jsTrim st.followUpQuestion = ""
      · exact absurd (by simp [handleFollowUpSubmit, ht]) hne
      · simp [handleFollowUpSubmit, ht]
    · exact absurd (by
        unfold handleFollowUpSubmit
        split
        · rfl
        · rfl) hne

/-- C5 witness: on a concrete state with a non-blank question, a successful
follow-up response is appended to the follow-up list. -/
theorem C5_failure_preserves_state_witness :
    ∃ d, (ApiResult.success exFollowUpAnswer : ApiResult FollowUpQuestion) =
        .success d
      ∧ (handleFollowUpSubmit exClientState (.success exFollowUpAnswer)).followUps =
          exClientState.followUps ++ [d] :=
  (C5_failure_preserves_state exClientState true none none
    (.success exFollowUpAnswer)).2.2 (by decide)

/-- C2 counterexample: the claim fails as stated — when the previewed
snapshot's optional `follow_ups` field is absent, `displayFollowUps` falls
back to the *current* follow-up list, so a follow-up stamped at version 2
is displayed while previewing version 1. -/
theorem C2_follow_up_counterexample :
    exSnapshotV1.follow_ups = none
    ∧ exSnapshotV1.version = 1
    ∧ exFollowUpV2.version = some 2
    ∧ displayFollowUps (some exSnapshotV1) [exFollowUpV2] = [exFollowUpV2]
    ∧ exFollowUpV2 ∈ displayFollowUps (some exSnapshotV1) [exFollowUpV2] :=
  ⟨rfl, rfl, rfl, rfl, by decide⟩

/-- C2 (amended): when the previewed snapshot's `follow_ups` field is
present, the displayed follow-up list is exactly the stored snapshot list;
hence a follow-up asked at a later version is displayed only if the stored
snapshot list itself contains one. -/
theorem C2_snapshot_follow_ups (v : OpinionVersion)
    (followUps l : List FollowUpQuestion) (h : v.follow_ups = some l) :
    displayFollowUps (some v) followUps = l
    ∧ ((∀ f ∈ l, ∀ w, f.version = some w → w ≤ v.version) →
        ∀ f ∈ displayFollowUps (some v) followUps, ∀ w,
          f.version = some w → w ≤ v.version) := by
  have hd : displayFollowUps (some v) followUps = l := by
    simp [displayFollowUps, jsOrList, h]
  exact ⟨hd, fun hall f hf => hall f (hd ▸ hf)⟩

/-- `x || 0` collapses on a list length: `0 || 0` is `0` and a non-zero
length is truthy. -/
theorem jsOrNum_length (x : List OpinionVersion) :
    jsOrNum (some (x.length : Int)) 0 = (x.length : Int) := by
  by_cases h : (x.length : Int) = 0
  · simp [jsOrNum, h]
  · simp [jsOrNum, h]

/-- The snapshot produced by the regenerated meeting used in the C1
witness. -/
def exRegenerated : Meeting :=
  { exMeeting with
    opinions := [exOpinion]
    chair_summary := "sum2"
    chair_recommendation := "rec2"
    status := .completed
    current_version := some 2
    opinion_history := some [archiveCurrent exMeeting "t2" (some 1)] }

/-- C1: after every successful create, regenerate, or restore,
`current_version` equals `opinion_history.length + 1` (Version Manager
modelled from the spec); accordingly the client's History label and
regenerate confirmation prompt compute the total number of versions as
`opinion_history.length + 1`, which equals `current_version`. -/
theorem C1_current_version_invariant (mid : String) (uid : Int) (q : String)
    (ctx : Option String) (ops newOps : List AgentOpinion)
    (su re t td t2 : String) (m m' mc : Meeting) (v : Int) (tb : Option Int) :
    (createMeeting mid uid q ctx ops su re t td = some mc →
      versionInvariant mc)
    ∧ (versionInvariant m → regenerateMeeting m newOps su re t2 tb = some m' →
        versionInvariant m')
    ∧ (versionInvariant m → restoreMeeting m v t2 tb = some m' →
        versionInvariant m')
    ∧ (versionInvariant m →
        some (historyLabelCount m) = m.current_version
        ∧ some (regenerateHistoryCount (some m)) = m.current_version) := by
  refine ⟨?_, ?_, ?_, ?_⟩
  · intro h
    unfold createMeeting at h
    split at h
    · have hx := Option.some.inj h
      subst hx
      unfold versionInvariant
      rfl
    · exact absurd h (by simp)
  · intro hinv h
    unfold regenerateMeeting at h
    split at h
    · have hx := Option.some.inj h
      subst hx
      unfold versionInvariant at hinv ⊢
      rw [hinv]
      simp only [Option.getD_some, Option.some.injEq, List.length_append,
        List.length_singleton]
      push_cast
      ring
    · exact absurd h (by simp)
  · intro hinv h
    unfold restoreMeeting at h
    split at h
    · split at h
      · have hx := Option.some.inj h
        subst hx
        unfold versionInvariant at hinv ⊢
        rw [hinv]
        simp only [Option.getD_some, Option.some.injEq, List.length_append,
          List.length_singleton]
        push_cast
        ring
      · exact absurd h (by simp)
    · exact absurd h (by simp)
  · intro hinv
    unfold versionInvariant at hinv
    cases hoh : m.opinion_history with
    | none =>
      simp only [hoh, Option.getD_none, List.length_nil, Nat.cast_zero,
        zero_add] at hinv
      have h1 : historyLabelCount m = 1 := by
        simp [historyLabelCount, hoh, jsOrNum]
      have h2 : regenerateHistoryCount (some m) = 1 := by
        simp [regenerateHistoryCount, hoh, jsOrNum]
      exact ⟨by rw [h1, hinv], by rw [h2, hinv]⟩
    | some l =>
      simp only [hoh, Option.getD_some] at hinv
      have h1 : historyLabelCount m = (l.length : Int) + 1 := by
        simp [historyLabelCount, hoh, jsOrNum_length]
      have h2 : regenerateHistoryCount (some m) = (l.length : Int) + 1 := by
        simp [regenerateHistoryCount, hoh, jsOrNum_length]
      exact ⟨by rw [h1, hinv], by rw [h2, hinv]⟩

/-- C1 witness: regenerating a concrete version-1 meeting with an empty
history yields version 2 with one history entry, and the client counts on
the original meeting equal its `current_version`. -/
theorem C1_current_version_invariant_witness :
    versionInvariant exRegenerated
    ∧ (some (historyLabelCount exMeeting) = exMeeting.current_version
       ∧ some (regenerateHistoryCount (some exMeeting)) =
          exMeeting.current_version) :=
  ⟨(C1_current_version_invariant "m1" 1 "q" none [exOpinion] [exOpinion]
      "sum2" "rec2" "t" "t" "t2" exMeeting exRegenerated exMeeting 1
      (some 1)).2.1 rfl rfl,
   (C1_current_version_invariant "m1" 1 "q" none [exOpinion] [exOpinion]
      "sum2" "rec2" "t" "t" "t2" exMeeting exRegenerated exMeeting 1
      (some 1)).2.2.2 rfl⟩

/-- C2 witness: a concrete snapshot storing one version-1 follow-up
displays exactly that list, excluding the current version-2 follow-up. -/
theorem C2_snapshot_follow_ups_witness :
    displayFollowUps (some { exSnapshotV1 with follow_ups := some [] })
        [exFollowUpV2] = []
    ∧ ((∀ f ∈ ([] : List FollowUpQuestion), ∀ w, f.version = some w →
          w ≤ OpinionVersion.version { exSnapshotV1 with follow_ups := some [] }) →
        ∀ f ∈ displayFollowUps (some { exSnapshotV1 with follow_ups := some [] })
          [exFollowUpV2], ∀ w, f.version = some w →
          w ≤ OpinionVersion.version { exSnapshotV1 with follow_ups := some [] }) :=
  C2_snapshot_follow_ups { exSnapshotV1 with follow_ups := some [] }
    [exFollowUpV2] [] rfl

end Aicxo
